import Mathlib

/-!
Verification of the amberelectric-api-tools tariff engine.

Shallow embedding of the tariff-evaluation code:
- `tariff.py` (the `TariffComponent` / `Tariff` classes, `filter_usages`,
  `create_usage_filter`) is embedded in the `Amber` namespace;
- the older inline engine in `amber_invoice_estimate.py` (its own
  `TariffComponent`, `create_line_for_component`, the export-credit block of
  `main`, and the invoice totalling loop) is embedded in `Amber.Estimate`.

Modelling conventions:
- Python floats are modelled by exact rationals (`ℚ`); Python's `round`,
  which rounds halves to even, is modelled by `pyRound`.
- Python truthiness of an optional number (`if x:` and `filter(None, xs)`)
  is modelled by `truthy`: `None` and `0` are falsy.
- Code that can raise returns `Except String`; the string holds the Python
  error message.
- Typed configuration structures replace the JSON dictionaries: a key that
  may be absent becomes an `Option` field.  Malformed-value errors (e.g. a
  `monthFilter` that is not a list of ints) are ruled out by the types.
- Timezone conversion and the holiday calendar are external collaborators:
  a usage record carries its hour in the account timezone (`local_hour`)
  and the calendar is an opaque `Bool`-valued function of the date.
-/

namespace Amber

/-- Python's built-in `round` (round half to even) on an exact rational. -/
def pyRound (q : ℚ) : ℤ :=
  if q - (⌊q⌋ : ℚ) < 1/2 then ⌊q⌋
  else if 1/2 < q - (⌊q⌋ : ℚ) then ⌊q⌋ + 1
  else if ⌊q⌋ % 2 = 0 then ⌊q⌋ else ⌊q⌋ + 1

/-- `pyRound` never strays more than half a cent from its argument. -/
theorem pyRound_close (q : ℚ) : |(pyRound q : ℚ) - q| ≤ 1/2 := by
  have h0 : (⌊q⌋ : ℚ) ≤ q := Int.floor_le q
  have h1 : q < (⌊q⌋ : ℚ) + 1 := Int.lt_floor_add_one q
  rw [abs_le]
  unfold pyRound
  split_ifs with hr1 hr2 hpar
  · constructor <;> linarith
  · constructor <;> push_cast <;> linarith
  · have hr : q - (⌊q⌋ : ℚ) = 1/2 := le_antisymm (not_lt.mp hr2) (not_lt.mp hr1)
    constructor <;> linarith
  · have hr : q - (⌊q⌋ : ℚ) = 1/2 := le_antisymm (not_lt.mp hr2) (not_lt.mp hr1)
    constructor <;> push_cast <;> linarith

/-- Channel types of the amberelectric API (`ChannelType` enum). -/
inductive ChannelType : Type
  | general
  | controlledLoad
  | feedIn
deriving DecidableEq, Repr

/-- Tariff period classification of the amberelectric API (`PeriodType` enum). -/
inductive PeriodType : Type
  | peak
  | shoulder
  | offPeak
  | solarSponge
deriving DecidableEq, Repr

/-- One metered usage interval (`amberelectric.model.usage.Usage`), restricted
to the attributes the tariff engine inspects.  `local_hour` is
`start_time.astimezone(account_timezone).hour`; `date` is an abstract day
identifier fed to the calendar; `duration` is the interval length in minutes
(present on the API model, surfaced here so claims about it can be stated,
although `tariff.py` never reads it). -/
structure Usage : Type where
  kwh : ℚ
  spot_per_kwh : ℚ
  duration : ℕ
  channel_type : ChannelType
  period : PeriodType
  local_hour : ℕ
  date : ℕ
deriving DecidableEq, Repr

/-- `LineItem.__init__` from `amber_invoice_estimate.py` (the same shape that
`tariff.py` imports from the `invoice` module). -/
structure LineItem : Type where
  label : String
  amount_used : ℚ
  unit_price : ℚ
  total_cost : ℤ
deriving DecidableEq, Repr

/-- `AccountConfig` from `account_config.py`, restricted to the fields the
tariff engine reads.  The timezone is folded into `Usage.local_hour`; the
`TariffCalendar` is its `is_working_weekday` function. -/
structure AccountConfig : Type where
  greenpower_active : Bool
  feed_in_active : Bool
  marginal_loss_factor : ℚ
  is_working_weekday : ℕ → Bool

/-- `YearMonth` from `util.py`. -/
structure YearMonth : Type where
  year : ℕ
  month : ℕ
deriving DecidableEq, Repr

/-- Gregorian leap-year rule, as implemented by Python's `datetime.date`
arithmetic that `YearMonth.total_days` relies on. -/
def isLeapYear (y : ℕ) : Bool :=
  (y % 4 == 0 && y % 100 != 0) || (y % 400 == 0)

/-- `YearMonth.total_days` from `util.py`: the number of calendar days in the
month (`last_date() - first_date() + 1` under `datetime` arithmetic). -/
def YearMonth.total_days (ym : YearMonth) : ℕ :=
  if ym.month = 2 then (if isLeapYear ym.year then 29 else 28)
  else if ym.month = 4 ∨ ym.month = 6 ∨ ym.month = 9 ∨ ym.month = 11 then 30
  else 31

/-- Python truthiness of an optional number: `None` and `0` are falsy.  This
is the test applied by `if x:` and by `filter(None, xs)` in the source. -/
def truthy (o : Option ℚ) : Bool :=
  match o with
  | none => false
  | some q => decide (q ≠ 0)

/-- Whether an `Except` result is a success (`.ok`). -/
def isOkE {ε α : Type} (e : Except ε α) : Bool :=
  match e with
  | .ok _ => true
  | .error _ => false

/-- The JSON dictionary handed to `TariffComponent.__init__` in `tariff.py`,
as a typed structure: each optional key is an `Option` field.  (`tariff.py`
normalizes a single boolean `workingWeekdayFilter` value to a one-element
list before building the membership set, so a list field covers both
shapes.) -/
structure TariffComponentJson : Type where
  amberLabel : Option String := none
  dnspLabel : Option String := none
  periodFilter : Option (List PeriodType) := none
  channelTypeFilter : Option (List ChannelType) := none
  hourFilter : Option (List ℕ) := none
  workingWeekdayFilter : Option (List Bool) := none
  greenPowerFilter : Option Bool := none
  feedInFilter : Option Bool := none
  monthFilter : Option (List ℕ) := none
  centsPerKwh : Option ℚ := none
  centsPerDay : Option ℚ := none
  centsPerPeakDemandKwPerDay : Option ℚ := none

/-- The constructed `TariffComponent` of `tariff.py`.  The Python class
stores its per-record filters as a list of closures and its
greenpower/feed-in/month filters as closures over the configured pass
values; here the configured values themselves are stored and the closures
are rebuilt by `TariffComponent.usage_filters` and the gate functions
below. -/
structure TariffComponent : Type where
  account_config : AccountConfig
  dnsp_label : Option String
  amber_label : String
  periodFilter : Option (List PeriodType)
  channelTypeFilter : Option (List ChannelType)
  hourFilter : Option (List ℕ)
  workingWeekdayFilter : Option (List Bool)
  greenpower_filter : Option Bool
  feed_in_filter : Option Bool
  month_filter : Option (List ℕ)
  per_kwh_price_cents : Option ℚ
  per_day_price_cents : Option ℚ
  per_peak_demand_kw_per_day_price_cents : Option ℚ

/-- `TariffComponent.__init__` from `tariff.py`: requires `amberLabel`, then
(after building the filters, whose malformed-value errors are ruled out by
the typed configuration) requires that exactly one of the three pricing
values is truthy — `filter(None, …)` drops both absent keys and keys set
to `0`. -/
def TariffComponent.init (j : TariffComponentJson) (ac : AccountConfig) :
    Except String TariffComponent :=
  match j.amberLabel with
  | none => .error "Required property amberLabel not found in tariff component"
  | some lbl =>
    if ([j.centsPerKwh, j.centsPerDay, j.centsPerPeakDemandKwPerDay].filter truthy).length ≠ 1 then
      .error "Tariff components should have exactly one of centsPerKwh, centsPerDay, or centsPerPeakDemandKwPerDay"
    else
      .ok { account_config := ac
            dnsp_label := j.dnspLabel
            amber_label := lbl
            periodFilter := j.periodFilter
            channelTypeFilter := j.channelTypeFilter
            hourFilter := j.hourFilter
            workingWeekdayFilter := j.workingWeekdayFilter
            greenpower_filter := j.greenPowerFilter
            feed_in_filter := j.feedInFilter
            month_filter := j.monthFilter
            per_kwh_price_cents := j.centsPerKwh
            per_day_price_cents := j.centsPerDay
            per_peak_demand_kw_per_day_price_cents := j.centsPerPeakDemandKwPerDay }

/-- `create_usage_filter` from `tariff.py`: returns a membership predicate
when the configuration key is present, and `None` when it is absent. -/
def create_usage_filter {T : Type} [DecidableEq T] (vals : Option (List T))
    (usage_attribute_selector : Usage → T) : Option (Usage → Bool) :=
  vals.map (fun typed_filter_values =>
    fun usage => decide (usage_attribute_selector usage ∈ typed_filter_values))

/-- The `usage_filters` list built in `TariffComponent.__init__`
(`tariff.py` lines 62-72): the four per-record filters in declaration
order, with the absent ones dropped by `filter(None, …)`. -/
def TariffComponent.usage_filters (c : TariffComponent) : List (Usage → Bool) :=
  List.filterMap id
    [create_usage_filter c.periodFilter (fun usage => usage.period),
     create_usage_filter c.channelTypeFilter (fun usage => usage.channel_type),
     create_usage_filter c.hourFilter (fun usage => usage.local_hour),
     create_usage_filter c.workingWeekdayFilter
       (fun usage => c.account_config.is_working_weekday usage.date)]

/-- `filter_usages` from `tariff.py`: applies each of the component's usage
filters in turn. -/
def filter_usages (base_usages : List Usage) (component : TariffComponent) : List Usage :=
  component.usage_filters.foldl (fun filtered f => filtered.filter f) base_usages

/-- The greenpower/feed-in gate test of `create_line_for_component`:
`if self.x_filter and not self.x_filter(active)` — the closure compares the
account flag with the configured pass value. -/
def gateFails (filt : Option Bool) (active : Bool) : Bool :=
  match filt with
  | some pass_val => active != pass_val
  | none => false

/-- The month gate test of `create_line_for_component`:
`if self.month_filter and not self.month_filter(month.month)`. -/
def monthGateFails (filt : Option (List ℕ)) (m : ℕ) : Bool :=
  match filt with
  | some month_values => !(decide (m ∈ month_values))
  | none => false

/-- Python's built-in `max(xs, key=k)` on a list: raises on an empty
sequence (modelled as `none`), otherwise folds left keeping the incumbent
unless the challenger's key is strictly greater — so on ties the earliest
element wins. -/
def pymaxByKey (key : Usage → ℚ) : List Usage → Option Usage
  | [] => none
  | x :: xs => some (xs.foldl (fun best u => if key u > key best then u else best) x)

/-- `TariffComponent.create_line_for_component` from `tariff.py`: gate on
greenpower / feed-in / month, then branch on the first truthy pricing
field (per-day, else per-kWh, else per-peak-demand, else RuntimeError);
the per-peak branch takes `max(filtered_usages, key=kwh)` (ValueError on
an empty sequence) and uses `peak_demand_kw = peak.kwh * 2`.  A zero
rounded total suppresses the line item. -/
def TariffComponent.create_line_for_component (c : TariffComponent) (month : YearMonth)
    (base_usages : List Usage) : Except String (Option LineItem) :=
  if gateFails c.greenpower_filter c.account_config.greenpower_active then .ok none
  else if gateFails c.feed_in_filter c.account_config.feed_in_active then .ok none
  else if monthGateFails c.month_filter month.month then .ok none
  else
    let amount_and_unit : Except String (ℚ × ℚ) :=
      if truthy c.per_day_price_cents then
        .ok ((month.total_days : ℚ), c.per_day_price_cents.getD 0)
      else
        let filtered_usages := filter_usages base_usages c
        if truthy c.per_kwh_price_cents then
          .ok ((filtered_usages.map (fun u => u.kwh)).sum, c.per_kwh_price_cents.getD 0)
        else if truthy c.per_peak_demand_kw_per_day_price_cents then
          match pymaxByKey (fun u => u.kwh) filtered_usages with
          | none => .error "max() arg is an empty sequence"
          | some peak_demand_usage =>
            let peak_demand_kw := peak_demand_usage.kwh * 2
            .ok ((month.total_days : ℚ),
                 c.per_peak_demand_kw_per_day_price_cents.getD 0 * peak_demand_kw)
        else .error "TariffComponent does not have any known price property"
    match amount_and_unit with
    | .error e => .error e
    | .ok (amount, unit_price) =>
      let total_cost_cents := pyRound (amount * unit_price)
      if total_cost_cents ≠ 0 then
        .ok (some { label := c.amber_label, amount_used := amount,
                    unit_price := unit_price, total_cost := total_cost_cents })
      else .ok none

/-- The `Tariff` class of `tariff.py`: a distribution loss factor (default
1.0) and the component list, sharing the account config. -/
structure Tariff : Type where
  account_config : AccountConfig
  distribution_loss_factor : ℚ
  components : List TariffComponent

/-- `Tariff.get_wholesales_fees_for` from `tariff.py`: combined loss factor
(inverted on request), spot-cost sum, optional GST strip (`/ 1.1`), extra
charges, rounding, the division-guarded per-kWh average, and the optional
final negation. -/
def Tariff.get_wholesales_fees_for (t : Tariff) (usages : List Usage) (label : String)
    (extra_charges : ℚ) (invert_loss_factor : Bool) (remove_gst : Bool)
    (negate_total : Bool) : LineItem :=
  let loss_factor0 := t.distribution_loss_factor * t.account_config.marginal_loss_factor
  let loss_factor := if invert_loss_factor then 1 / loss_factor0 else loss_factor0
  let total_fees0 := ((usages.map (fun u => u.kwh * u.spot_per_kwh)).sum) * loss_factor
  let total_fees1 := if remove_gst then total_fees0 / (11/10) else total_fees0
  let total_fees := total_fees1 + extra_charges
  let total_amount_cents := pyRound total_fees
  let total_kwh := (usages.map (fun u => u.kwh)).sum
  let per_kwh_average_cost :=
    if total_kwh ≠ 0 then (total_amount_cents : ℚ) / total_kwh else 0
  let final_cents := if negate_total then -total_amount_cents else total_amount_cents
  { label := label, amount_used := total_kwh, unit_price := per_kwh_average_cost,
    total_cost := final_cents }

/-- The component loop of `Tariff.get_fee_lines_for`: walk the selected
components in declaration order, appending each non-suppressed line item
and propagating any error a component raises. -/
def fee_lines_loop (month : YearMonth) (base_usages : List Usage) :
    List TariffComponent → List LineItem → Except String (List LineItem)
  | [], result => .ok result
  | component :: rest, result =>
    match component.create_line_for_component month base_usages with
    | .error e => .error e
    | .ok (some line_item) => fee_lines_loop month base_usages rest (result ++ [line_item])
    | .ok none => fee_lines_loop month base_usages rest result

/-- `Tariff.get_fee_lines_for` from `tariff.py`: empty usage short-circuits
to `[]`; otherwise each selected component's non-suppressed line item is
appended in declaration order (errors from a component propagate). -/
def Tariff.get_fee_lines_for (t : Tariff) (month : YearMonth) (base_usages : List Usage)
    (tariff_component_filter : TariffComponent → Bool) : Except String (List LineItem) :=
  if base_usages.isEmpty then .ok []
  else fee_lines_loop month base_usages (t.components.filter tariff_component_filter) []

namespace Estimate

/-- The JSON dictionary handed to the `TariffComponent.__init__` of
`amber_invoice_estimate.py` (the older inline engine), as a typed
structure. -/
structure TariffComponentJson : Type where
  amberLabel : Option String := none
  periodFilter : Option (List PeriodType) := none
  channelTypeFilter : Option (List ChannelType) := none
  greenPowerFilter : Option Bool := none
  feedInFilter : Option Bool := none
  centsPerKwh : Option ℚ := none
  centsPerDay : Option ℚ := none

/-- The `TariffComponent` class of `amber_invoice_estimate.py`: only period
and channel-type record filters, greenpower/feed-in gates, and two pricing
fields. -/
structure TariffComponent : Type where
  amber_label : String
  periodFilter : Option (List PeriodType)
  channelTypeFilter : Option (List ChannelType)
  greenpower_filter : Option Bool
  feed_in_filter : Option Bool
  per_kwh_price_cents : Option ℚ
  per_day_price_cents : Option ℚ

/-- `TariffComponent.__init__` from `amber_invoice_estimate.py`: requires
`amberLabel`; the only pricing validation is that `centsPerKwh` and
`centsPerDay` must not both be truthy (`if a and b: raise`) — zero pricing
keys are accepted. -/
def TariffComponent.init (j : TariffComponentJson) : Except String TariffComponent :=
  match j.amberLabel with
  | none => .error "Required property amberLabel not found in tariff component"
  | some lbl =>
    if truthy j.centsPerKwh && truthy j.centsPerDay then
      .error "Tariff components should only specify a centsPerKwh OR centsPerDay, not both"
    else
      .ok { amber_label := lbl
            periodFilter := j.periodFilter
            channelTypeFilter := j.channelTypeFilter
            greenpower_filter := j.greenPowerFilter
            feed_in_filter := j.feedInFilter
            per_kwh_price_cents := j.centsPerKwh
            per_day_price_cents := j.centsPerDay }

/-- The `Tariff` class of `amber_invoice_estimate.py`. -/
structure Tariff : Type where
  distribution_loss_factor : ℚ
  components : List TariffComponent

/-- The module-level `create_line_for_component` of
`amber_invoice_estimate.py`: greenpower / feed-in gates, then the per-kWh
branch (period filter, then channel-type filter, sum of kWh) when
`per_kwh_price_cents` is truthy, else the per-day branch — which
multiplies by `per_day_price_cents` even when that is `None` (a Python
`TypeError`, modelled as an error). -/
def create_line_for_component (label : String) (month : YearMonth)
    (component : TariffComponent) (greenpower_active : Bool) (feed_in_active : Bool)
    (base_usages : List Usage) : Except String (Option LineItem) :=
  if gateFails component.greenpower_filter greenpower_active then .ok none
  else if gateFails component.feed_in_filter feed_in_active then .ok none
  else
    let amount_and_unit : Except String (ℚ × ℚ) :=
      if truthy component.per_kwh_price_cents then
        let filtered1 : List Usage :=
          match component.periodFilter with
          | some vs => base_usages.filter (fun u => decide (u.period ∈ vs))
          | none => base_usages
        let filtered2 : List Usage :=
          match component.channelTypeFilter with
          | some vs => filtered1.filter (fun u => decide (u.channel_type ∈ vs))
          | none => filtered1
        .ok ((filtered2.map (fun u => u.kwh)).sum, component.per_kwh_price_cents.getD 0)
      else
        match component.per_day_price_cents with
        | none => .error "TypeError: unsupported operand type(s) for *: 'int' and 'NoneType'"
        | some per_day => .ok ((month.total_days : ℚ), per_day)
    match amount_and_unit with
    | .error e => .error e
    | .ok (amount, unit_price) =>
      let total_cost_cents := pyRound (amount * unit_price)
      if total_cost_cents ≠ 0 then
        .ok (some { label := label, amount_used := amount,
                    unit_price := unit_price, total_cost := total_cost_cents })
      else .ok none

/-- The inner loop of the export-credit block: add each non-suppressed
per-kWh market-charge line's total into the running cents total,
propagating any error. -/
def add_market_lines (month : YearMonth) (green_power_active : Bool)
    (feed_in_active : Bool) (feed_in_usages : List Usage) :
    List TariffComponent → ℤ → Except String ℤ
  | [], acc => .ok acc
  | component :: rest, acc =>
    match create_line_for_component component.amber_label month component
            green_power_active feed_in_active feed_in_usages with
    | .error e => .error e
    | .ok (some line_item) =>
      add_market_lines month green_power_active feed_in_active feed_in_usages rest
        (acc + line_item.total_cost)
    | .ok none =>
      add_market_lines month green_power_active feed_in_active feed_in_usages rest acc

/-- The "Your Export Credits" block of `main` in `amber_invoice_estimate.py`
(lines 295-312): guarded only by `if feed_in_usages:` (list non-emptiness),
it inverts the combined loss factor, rounds the spot-cost sum, adds the
per-kWh market-charge line totals, and then divides the total cents by the
total feed-in kWh with **no** zero guard — a `ZeroDivisionError` when the
(non-empty) feed-in usage sums to zero kWh. -/
def export_credits_section (general_tariff : Tariff) (other_charges : Tariff)
    (marginal_loss_factor : ℚ) (month : YearMonth) (green_power_active : Bool)
    (feed_in_active : Bool) (feed_in_usages : List Usage) :
    Except String (Option LineItem) :=
  if feed_in_usages.isEmpty then .ok none
  else
    let export_loss_factor :=
      1 / (general_tariff.distribution_loss_factor * marginal_loss_factor)
    let base_cents :=
      pyRound (((feed_in_usages.map (fun u => u.kwh * u.spot_per_kwh)).sum)
               * export_loss_factor)
    match add_market_lines month green_power_active feed_in_active feed_in_usages
            (other_charges.components.filter (fun c => truthy c.per_kwh_price_cents))
            base_cents with
    | .error e => .error e
    | .ok export_wholesale_total_amount_cents =>
      let export_wholesale_total_kwh := (feed_in_usages.map (fun u => u.kwh)).sum
      if export_wholesale_total_kwh = 0 then
        .error "ZeroDivisionError: float division by zero"
      else
        .ok (some { label := "Solar Exports"
                    amount_used := export_wholesale_total_kwh
                    unit_price := (export_wholesale_total_amount_cents : ℚ)
                                  / export_wholesale_total_kwh
                    total_cost := -export_wholesale_total_amount_cents })

end Estimate

/-- An assembled invoice: the ordered mapping from section name to line
items (`Invoice = Dict[str, List[LineItem]]`). -/
abbrev Invoice : Type := List (String × List LineItem)

/-- The accumulation of `total_cents` over all sections and items in the
totalling loop of `main` (`amber_invoice_estimate.py` lines 317-323). -/
def invoice_all_costs (invoice : Invoice) : ℤ :=
  (invoice.map (fun sec => (sec.2.map (fun item => item.total_cost)).sum)).sum

/-- `solar_credits` from the totalling loop (line 325):
`-invoice["Your Export Credits"][0].total_cost` when the section is present
(an IndexError if it were present but empty), else `0`. -/
def invoice_solar_credits (invoice : Invoice) : Except String ℤ :=
  match invoice.find? (fun sec => sec.1 == "Your Export Credits") with
  | none => .ok 0
  | some (_, []) => .error "IndexError: list index out of range"
  | some (_, item :: _) => .ok (-item.total_cost)

/-- The final-total computation of the totalling loop (lines 326-327):
`gst_cents = round((total_cents - solar_credits) * 0.1)` (no GST on
exports) and `total_cents = total_cents + gst_cents`. -/
def invoice_final_total (invoice : Invoice) : Except String ℤ :=
  let total_cents := invoice_all_costs invoice
  match invoice_solar_credits invoice with
  | .error e => .error e
  | .ok solar_credits =>
    let gst_cents := pyRound (((total_cents - solar_credits : ℤ) : ℚ) * (1/10))
    .ok (total_cents + gst_cents)

/-- The wholesale-total formula exactly as the specification words it
(spec §4.3): combined loss factor, inverted to `1/x` on request, times the
spot-cost sum, divided by 1.1 when stripping GST, plus extra charges,
rounded to integer cents, sign-flipped when negating.  Stated separately
from `Tariff.get_wholesales_fees_for` so the code can be compared against
it. -/
def spec_wholesale_total (usages : List Usage) (distribution_loss_factor : ℚ)
    (marginal_loss_factor : ℚ) (extra_charges : ℚ) (invert_loss_factor : Bool)
    (remove_gst : Bool) (negate_total : Bool) : ℤ :=
  let combined_loss_factor := distribution_loss_factor * marginal_loss_factor
  let loss_factor :=
    if invert_loss_factor then 1 / combined_loss_factor else combined_loss_factor
  let raw_total := ((usages.map (fun u => u.kwh * u.spot_per_kwh)).sum) * loss_factor
  let after_gst := if remove_gst then raw_total / (11/10) else raw_total
  let rounded := pyRound (after_gst + extra_charges)
  if negate_total then -rounded else rounded

/-- The spec-side reading of one filter dimension (spec §4.1): a declared
key constrains the record's attribute to the declared membership set; an
absent key imposes no constraint. -/
def optFilterPass {T : Type} [DecidableEq T] (declared : Option (List T)) (attr : T) : Bool :=
  match declared with
  | none => true
  | some vs => decide (attr ∈ vs)

/-- The spec-side "earliest maximal element" (spec §4.2: "ties broken by
encounter order — first maximum wins"): the head wins unless the rest of
the list holds a strictly greater key. -/
def firstMaxBy (key : Usage → ℚ) : List Usage → Option Usage
  | [] => none
  | x :: xs =>
    match firstMaxBy key xs with
    | none => some x
    | some m => if key m > key x then some m else some x

/-- How many of the three pricing keys are present (regardless of value) in
a `tariff.py` component configuration — the quantity claim C1 counts. -/
def presentPricingCount (j : TariffComponentJson) : ℕ :=
  ([j.centsPerKwh, j.centsPerDay, j.centsPerPeakDemandKwPerDay].filter
    (fun o => o.isSome)).length

/-- Modelled from the spec: the invoice-assembler `main` that emits the
"Peak Demand Fees" section is not under `src/` — the
`amber_invoice_estimate.py` present there is an earlier revision with no
peak-demand support, while `tariff.py` (whose `get_fee_lines_for` takes the
component selector and whose `LineItem` import names the missing `invoice`
module) is its callee.  Spec §4.4 step 3: the section is "only emitted if
GENERAL usage exists and the general tariff has at least one
peak-demand-priced component"; when emitted it holds the peak-demand fee
lines of the general tariff over the GENERAL usage. -/
def peak_demand_fees_section (general_tariff : Tariff) (month : YearMonth)
    (general_usages : List Usage) : Option (Except String (List LineItem)) :=
  if !general_usages.isEmpty &&
     general_tariff.components.any
       (fun c => truthy c.per_peak_demand_kw_per_day_price_cents) then
    some (general_tariff.get_fee_lines_for month general_usages
      (fun c => truthy c.per_peak_demand_kw_per_day_price_cents))
  else none

/-- `firstMaxBy` never returns `none` on a non-empty list. -/
theorem firstMaxBy_ne_none (key : Usage → ℚ) (x : Usage) (xs : List Usage) :
    firstMaxBy key (x :: xs) ≠ none := by
  show (match firstMaxBy key xs with
        | none => some x
        | some m => if key m > key x then some m else some x) ≠ none
  rcases firstMaxBy key xs with _ | m
  · simp
  · dsimp only
    split_ifs <;> simp

/-- The element `firstMaxBy` returns carries a maximal key. -/
theorem firstMaxBy_isMax (key : Usage → ℚ) :
    ∀ (l : List Usage) (m : Usage), firstMaxBy key l = some m →
      ∀ v ∈ l, key v ≤ key m := by
  intro l
  induction l with
  | nil => intro m h; simp [firstMaxBy] at h
  | cons x xs ih =>
    intro m h v hv
    rw [firstMaxBy] at h
    rcases h2 : firstMaxBy key xs with _ | m2
    · rw [h2] at h
      dsimp only at h
      injection h with h
      subst h
      have hxs : xs = [] := by
        cases xs with
        | nil => rfl
        | cons y ys => exact absurd h2 (firstMaxBy_ne_none key y ys)
      subst hxs
      rcases List.mem_singleton.mp hv with rfl
      exact le_refl _
    · rw [h2] at h
      dsimp only at h
      rcases List.mem_cons.mp hv with rfl | hvxs
      · split_ifs at h with hgt
        · injection h with h; subst h; exact le_of_lt hgt
        · injection h with h; subst h; exact le_refl _
      · have hle := ih m2 h2 v hvxs
        split_ifs at h with hgt
        · injection h with h; subst h; exact hle
        · injection h with h; subst h; exact le_trans hle (le_of_not_lt hgt)

/-- The left fold performed by Python `max` equals `firstMaxBy` on the tail,
challenged against the accumulator. -/
theorem pymax_foldl (key : Usage → ℚ) :
    ∀ (xs : List Usage) (b : Usage),
      xs.foldl (fun best u => if key u > key best then u else best) b =
        (match firstMaxBy key xs with
         | none => b
         | some m => if key m > key b then m else b) := by
  intro xs
  induction xs with
  | nil => intro b; simp [firstMaxBy]
  | cons y ys ih =>
    intro b
    rw [List.foldl_cons, ih, firstMaxBy]
    rcases h : firstMaxBy key ys with _ | m
    · dsimp only
    · dsimp only
      by_cases hmy : key m > key y
      · simp only [if_pos hmy]
        split_ifs <;> first | rfl | (exfalso; linarith)
      · simp only [if_neg hmy]
        split_ifs <;> first | rfl | (exfalso; linarith)

/-- Python `max(xs, key=k)` computes exactly the earliest maximal element. -/
theorem pymaxByKey_eq_firstMaxBy (key : Usage → ℚ) (l : List Usage) :
    pymaxByKey key l = firstMaxBy key l := by
  cases l with
  | nil => rfl
  | cons x xs =>
    rw [pymaxByKey, pymax_foldl, firstMaxBy]
    rcases h : firstMaxBy key xs with _ | m
    · dsimp only
    · dsimp only
      split_ifs <;> rfl

/-- `firstMaxBy` returns the first maximum: the list splits around the
returned element, every member's key is at most its key, and every member
strictly before it has a strictly smaller key. -/
theorem firstMaxBy_first (key : Usage → ℚ) :
    ∀ (l : List Usage) (u : Usage), firstMaxBy key l = some u →
      ∃ l1 l2, l = l1 ++ u :: l2 ∧ (∀ v ∈ l, key v ≤ key u) ∧
        (∀ v ∈ l1, key v < key u) := by
  intro l
  induction l with
  | nil => intro u h; simp [firstMaxBy] at h
  | cons x xs ih =>
    intro u h
    have hmax := firstMaxBy_isMax key (x :: xs) u h
    rw [firstMaxBy] at h
    rcases h2 : firstMaxBy key xs with _ | m
    · rw [h2] at h
      dsimp only at h
      injection h with h
      subst h
      exact ⟨[], xs, rfl, hmax, by simp⟩
    · rw [h2] at h
      dsimp only at h
      split_ifs at h with hgt

      · injection h with h
        rw [h] at h2 hgt
        obtain ⟨l1, l2, heq, _, hfirst⟩ := ih u h2
        refine ⟨x :: l1, l2, by rw [heq]; rfl, hmax, ?_⟩
        intro v hv
        rcases List.mem_cons.mp hv with rfl | hvl1
        · exact hgt
        · exact hfirst v hvl1
      · injection h with h
        subst h
        exact ⟨[], xs, rfl, hmax, by simp⟩

/-- Adding 10% GST to an integer total and rounding the two ways the spec
mentions agree to within one cent. -/
theorem final_total_close (g : ℤ) :
    |g + pyRound ((g : ℚ) * (1/10)) - pyRound ((11/10) * (g : ℚ))| ≤ 1 := by
  have h1 := pyRound_close ((g : ℚ) * (1/10))
  have h2 := pyRound_close ((11/10) * (g : ℚ))
  rw [abs_le] at h1 h2
  have key : |((g + pyRound ((g : ℚ) * (1/10)) - pyRound ((11/10) * (g : ℚ)) : ℤ) : ℚ)| ≤ 1 := by
    rw [abs_le]
    push_cast
    constructor <;> linarith [h1.1, h1.2, h2.1, h2.2]
  exact_mod_cast key

/-! Concrete fixtures used by witnesses and counterexamples. -/

/-- A concrete account configuration: both flags on, MLF 1, every day a
working weekday. -/
def ac0 : AccountConfig :=
  { greenpower_active := true, feed_in_active := true, marginal_loss_factor := 1,
    is_working_weekday := fun _ => true }

/-- April 2021 — a 30-day month. -/
def m0 : YearMonth := { year := 2021, month := 4 }

/-- A 30-minute general usage interval of 1.5 kWh. -/
def u30 : Usage :=
  { kwh := 3/2, spot_per_kwh := 0, duration := 30, channel_type := .general,
    period := .peak, local_hour := 10, date := 1 }

/-- A 5-minute general usage interval of 1 kWh. -/
def u5 : Usage :=
  { kwh := 1, spot_per_kwh := 0, duration := 5, channel_type := .general,
    period := .peak, local_hour := 10, date := 1 }

/-- The feed-in record of the spec's end-to-end scenario: 10 kWh at spot
price 5 c/kWh. -/
def u_feed : Usage :=
  { kwh := 10, spot_per_kwh := 5, duration := 30, channel_type := .feedIn,
    period := .peak, local_hour := 12, date := 2 }

/-- A non-empty feed-in record carrying zero energy. -/
def u_zero : Usage :=
  { kwh := 0, spot_per_kwh := 5, duration := 30, channel_type := .feedIn,
    period := .peak, local_hour := 12, date := 2 }

/-- A peak-demand-priced component (10 c/kW/day) with no filters. -/
def c_peak : TariffComponent :=
  { account_config := ac0, dnsp_label := none, amber_label := "Demand",
    periodFilter := none, channelTypeFilter := none, hourFilter := none,
    workingWeekdayFilter := none, greenpower_filter := none, feed_in_filter := none,
    month_filter := none, per_kwh_price_cents := none, per_day_price_cents := none,
    per_peak_demand_kw_per_day_price_cents := some 10 }

/-- A peak-demand-priced component whose hour filter declares an empty
membership set, so it excludes every usage record. -/
def c_peak_empty : TariffComponent :=
  { account_config := ac0, dnsp_label := none, amber_label := "Demand",
    periodFilter := none, channelTypeFilter := none, hourFilter := some [],
    workingWeekdayFilter := none, greenpower_filter := none, feed_in_filter := none,
    month_filter := none, per_kwh_price_cents := none, per_day_price_cents := none,
    per_peak_demand_kw_per_day_price_cents := some 10 }

/-- A tariff with unit distribution loss factor and no components. -/
def t_unit : Tariff :=
  { account_config := ac0, distribution_loss_factor := 1, components := [] }

/-- An old-engine tariff with unit loss factor and no components. -/
def est_t : Estimate.Tariff := { distribution_loss_factor := 1, components := [] }

/-- A component configuration with two pricing keys present, one of them 0. -/
def j_two_keys : TariffComponentJson :=
  { amberLabel := some "X", centsPerKwh := some 0, centsPerDay := some 5 }

/-- A component configuration whose only pricing key is present with value 0. -/
def j_one_key_zero : TariffComponentJson :=
  { amberLabel := some "X", centsPerKwh := some 0 }

/-- An invoice with one section summing to 55 cents and no export credits. -/
def inv0 : Invoice :=
  [("Usage Fees", [{ label := "A", amount_used := 1, unit_price := 55, total_cost := 55 }])]

/-- Three usage records, the first two tied for the maximum kWh. -/
def tie_a : Usage :=
  { kwh := 5, spot_per_kwh := 0, duration := 30, channel_type := .general,
    period := .peak, local_hour := 1, date := 1 }

/-- Second member of the kWh tie. -/
def tie_b : Usage :=
  { kwh := 5, spot_per_kwh := 0, duration := 30, channel_type := .general,
    period := .peak, local_hour := 2, date := 2 }

/-- A strictly smaller record following the tie. -/
def tie_c : Usage :=
  { kwh := 3, spot_per_kwh := 0, duration := 30, channel_type := .general,
    period := .peak, local_hour := 3, date := 3 }

/-! Claim theorems. -/

/-- C9: for every month and component selector, `get_fee_lines_for` applied
to an empty usage sequence returns an empty list of line items. -/
theorem fee_lines_empty_usage (t : Tariff) (month : YearMonth)
    (sel : TariffComponent → Bool) :
    t.get_fee_lines_for month [] sel = .ok [] := rfl

/-- C3: for every usage list and parameter choice, the total of
`get_wholesales_fees_for` is the spec's formula (loss factor, optional
inversion, optional GST strip, extra charges, rounding, optional
negation); in particular the spec's feed-in scenario (10 kWh at spot 5,
both loss factors 1, inverted, GST kept, negated) totals −50. -/
theorem wholesale_fees_total_formula :
    (∀ (t : Tariff) (usages : List Usage) (label : String) (extra_charges : ℚ)
       (invert_loss_factor remove_gst negate_total : Bool),
       (t.get_wholesales_fees_for usages label extra_charges invert_loss_factor
          remove_gst negate_total).total_cost =
         spec_wholesale_total usages t.distribution_loss_factor
           t.account_config.marginal_loss_factor extra_charges invert_loss_factor
           remove_gst negate_total) ∧
    (t_unit.get_wholesales_fees_for [u_feed] "Solar Exports" 0 true false true).total_cost
      = -50 := by
  constructor
  · intro t usages label extra_charges invert_loss_factor remove_gst negate_total
    rfl
  · norm_num [Tariff.get_wholesales_fees_for, t_unit, u_feed, ac0, pyRound]

/-- C6: evaluation at the failing input.  The guarded path
(`Tariff.get_wholesales_fees_for`, `tariff.py` line 174) returns a line
with average unit price 0 for a non-empty usage list totalling 0 kWh, as
the claim states; but the export-credit block of `main`
(`amber_invoice_estimate.py` lines 295-312) divides by the total feed-in
kWh with no guard and raises `ZeroDivisionError` on the same input. -/
theorem export_credits_zero_kwh_eval :
    (t_unit.get_wholesales_fees_for [u_zero] "Feed In" 0 true false true).unit_price = 0 ∧
    (t_unit.get_wholesales_fees_for [u_zero] "Feed In" 0 true false true).total_cost = 0 ∧
    Estimate.export_credits_section est_t est_t 1 m0 true true [u_zero] =
      .error "ZeroDivisionError: float division by zero" := by
  refine ⟨?_, ?_, ?_⟩
  · norm_num [Tariff.get_wholesales_fees_for, t_unit, u_zero, ac0]
  · norm_num [Tariff.get_wholesales_fees_for, t_unit, u_zero, ac0, pyRound]
  · norm_num [Estimate.export_credits_section, Estimate.add_market_lines, est_t, u_zero, m0,
              pyRound]

/-- C1 (amended): construction of a `tariff.py` component succeeds iff the
required `amberLabel` is present and exactly one of the three pricing
values is truthy (present with a nonzero value) — a pricing key present
with value 0 counts as absent; and construction of an
`amber_invoice_estimate.py` component succeeds iff `amberLabel` is present
and `centsPerKwh`, `centsPerDay` are not both truthy (zero pricing keys
are accepted there). -/
theorem init_requires_exactly_one_truthy_pricing :
    (∀ (j : TariffComponentJson) (ac : AccountConfig),
       isOkE (TariffComponent.init j ac) = true ↔
         (j.amberLabel.isSome = true ∧
           ((truthy j.centsPerKwh = true ∧ truthy j.centsPerDay = false ∧
               truthy j.centsPerPeakDemandKwPerDay = false) ∨
            (truthy j.centsPerKwh = false ∧ truthy j.centsPerDay = true ∧
               truthy j.centsPerPeakDemandKwPerDay = false) ∨
            (truthy j.centsPerKwh = false ∧ truthy j.centsPerDay = false ∧
               truthy j.centsPerPeakDemandKwPerDay = true)))) ∧
    (∀ (j : Estimate.TariffComponentJson),
       isOkE (Estimate.TariffComponent.init j) = true ↔
         (j.amberLabel.isSome = true ∧
           ¬(truthy j.centsPerKwh = true ∧ truthy j.centsPerDay = true))) := by
  constructor
  · intro j ac
    rcases hL : j.amberLabel with _ | lbl <;>
      cases hA : truthy j.centsPerKwh <;>
      cases hB : truthy j.centsPerDay <;>
      cases hC : truthy j.centsPerPeakDemandKwPerDay <;>
        simp [TariffComponent.init, hL, hA, hB, hC, isOkE, List.filter]
  · intro j
    rcases hL : j.amberLabel with _ | lbl <;>
      cases hA : truthy j.centsPerKwh <;>
      cases hB : truthy j.centsPerDay <;>
        simp [Estimate.TariffComponent.init, hL, hA, hB, isOkE]

/-- C1 counterexample: `j_two_keys` has two pricing keys present yet
constructs successfully (the 0-valued key is dropped by truthiness), and
`j_one_key_zero` has exactly one pricing key present yet construction
fails — refuting the claim's presence-based reading in both directions. -/
theorem init_pricing_presence_counterexample :
    (presentPricingCount j_two_keys = 2 ∧
      isOkE (TariffComponent.init j_two_keys ac0) = true) ∧
    (presentPricingCount j_one_key_zero = 1 ∧
      isOkE (TariffComponent.init j_one_key_zero ac0) = false) :=
  ⟨⟨rfl, rfl⟩, ⟨rfl, rfl⟩⟩

/-- C2 (amended): for a peak-demand-priced component that passes its gates,
with a non-empty filtered subset whose Python-max record is `peak`, the
line has quantity = days in the month, peak demand kW = `peak.kwh * 2`
(the code hardcodes the 30-minute doubling and never reads the record's
`duration`), and unit price = configured cents/kW/day × that peak kW. -/
theorem peak_demand_line_shape (c : TariffComponent) (month : YearMonth)
    (base_usages : List Usage) (peak : Usage) (p : ℚ)
    (hg : gateFails c.greenpower_filter c.account_config.greenpower_active = false)
    (hf : gateFails c.feed_in_filter c.account_config.feed_in_active = false)
    (hm : monthGateFails c.month_filter month.month = false)
    (hday : truthy c.per_day_price_cents = false)
    (hkwh : truthy c.per_kwh_price_cents = false)
    (hp : c.per_peak_demand_kw_per_day_price_cents = some p)
    (hp0 : p ≠ 0)
    (hmax : pymaxByKey (fun u => u.kwh) (filter_usages base_usages c) = some peak) :
    c.create_line_for_component month base_usages =
      (if pyRound ((month.total_days : ℚ) * (p * (peak.kwh * 2))) ≠ 0 then
         .ok (some { label := c.amber_label,
                     amount_used := (month.total_days : ℚ),
                     unit_price := p * (peak.kwh * 2),
                     total_cost := pyRound ((month.total_days : ℚ) * (p * (peak.kwh * 2))) })
       else .ok none) := by
  have hps : truthy (some p) = true := by
    simp [truthy, hp0]
  simp [TariffComponent.create_line_for_component, hg, hf, hm, hday, hkwh, hp, hps, hmax]

/-- C2 witness: the no-filter 10 c/kW/day component over a single 1.5 kWh
record in a 30-day month. -/
theorem peak_demand_line_shape_witness :
    gateFails c_peak.greenpower_filter c_peak.account_config.greenpower_active = false ∧
    gateFails c_peak.feed_in_filter c_peak.account_config.feed_in_active = false ∧
    monthGateFails c_peak.month_filter m0.month = false ∧
    truthy c_peak.per_day_price_cents = false ∧
    truthy c_peak.per_kwh_price_cents = false ∧
    c_peak.per_peak_demand_kw_per_day_price_cents = some 10 ∧
    (10 : ℚ) ≠ 0 ∧
    pymaxByKey (fun u => u.kwh) (filter_usages [u30] c_peak) = some u30 ∧
    TariffComponent.create_line_for_component c_peak m0 [u30] =
      (if pyRound ((m0.total_days : ℚ) * (10 * (u30.kwh * 2))) ≠ 0 then
         .ok (some { label := c_peak.amber_label,
                     amount_used := (m0.total_days : ℚ),
                     unit_price := 10 * (u30.kwh * 2),
                     total_cost := pyRound ((m0.total_days : ℚ) * (10 * (u30.kwh * 2))) })
       else .ok none) :=
  ⟨rfl, rfl, rfl, rfl, rfl, rfl, by decide, rfl,
   peak_demand_line_shape c_peak m0 [u30] u30 10 rfl rfl rfl rfl rfl rfl (by decide) rfl⟩

/-- C2 counterexample: on a 5-minute 1 kWh record the code produces unit
price 10 × (1 × 2) = 20, while the claim's formula 10 × (kWh × 60/duration)
gives 120 — the code does not normalize by the record's duration. -/
theorem peak_demand_duration_counterexample :
    TariffComponent.create_line_for_component c_peak m0 [u5] =
      .ok (some { label := "Demand", amount_used := 30, unit_price := 20,
                  total_cost := 600 }) ∧
    ¬((20 : ℚ) = 10 * (u5.kwh * (60 / (u5.duration : ℚ)))) := by
  constructor
  · norm_num [TariffComponent.create_line_for_component, c_peak, m0, u5, ac0, gateFails,
      monthGateFails, truthy, filter_usages, TariffComponent.usage_filters,
      create_usage_filter, pymaxByKey, pyRound, YearMonth.total_days, isLeapYear]
  · norm_num [u5]

/-- C4: the GST payable is `round(0.1 × (grand_total − export_credit))` and
the final total is grand total plus that GST; when there is no export
section the final total agrees with `round(1.1 × grand_total)` to within
one cent (rounding tolerance), and the export-credit magnitude is
subtracted from the GST base. -/
theorem invoice_gst_law (invoice : Invoice) :
    (∀ solar_credits, invoice_solar_credits invoice = .ok solar_credits →
       invoice_final_total invoice =
         .ok (invoice_all_costs invoice +
           pyRound (((invoice_all_costs invoice - solar_credits : ℤ) : ℚ) * (1/10)))) ∧
    (invoice.find? (fun sec => sec.1 == "Your Export Credits") = none →
       ∃ final, invoice_final_total invoice = .ok final ∧
         |final - pyRound ((11/10) * ((invoice_all_costs invoice : ℤ) : ℚ))| ≤ 1) := by
  constructor
  · intro sc h
    unfold invoice_final_total
    rw [h]
  · intro hnone
    have hsc : invoice_solar_credits invoice = .ok 0 := by
      unfold invoice_solar_credits
      rw [hnone]
    refine ⟨invoice_all_costs invoice +
      pyRound (((invoice_all_costs invoice - 0 : ℤ) : ℚ) * (1/10)), ?_, ?_⟩
    · unfold invoice_final_total
      rw [hsc]
    · simpa using final_total_close (invoice_all_costs invoice)

/-- C4 witness: the single-section 55-cent invoice with no export
credits. -/
theorem invoice_gst_law_witness :
    invoice_solar_credits inv0 = .ok 0 ∧
    invoice_final_total inv0 =
      .ok (invoice_all_costs inv0 +
        pyRound (((invoice_all_costs inv0 - 0 : ℤ) : ℚ) * (1/10))) ∧
    inv0.find? (fun sec => sec.1 == "Your Export Credits") = none ∧
    (∃ final, invoice_final_total inv0 = .ok final ∧
      |final - pyRound ((11/10) * ((invoice_all_costs inv0 : ℤ) : ℚ))| ≤ 1) :=
  ⟨rfl, (invoice_gst_law inv0).1 0 rfl, rfl, (invoice_gst_law inv0).2 rfl⟩

/-- C5: the "Peak Demand Fees" section is present iff GENERAL usage exists
for the month and the general tariff holds at least one peak-demand-priced
component (modelled assembler; see `peak_demand_fees_section`). -/
theorem peak_demand_section_iff (t : Tariff) (month : YearMonth)
    (general_usages : List Usage) :
    (peak_demand_fees_section t month general_usages).isSome = true ↔
      (general_usages ≠ [] ∧ ∃ c ∈ t.components,
         truthy c.per_peak_demand_kw_per_day_price_cents = true) := by
  unfold peak_demand_fees_section
  split_ifs with h
  · simp only [Option.isSome_some, true_iff]
    rw [Bool.and_eq_true, Bool.not_eq_true'] at h
    obtain ⟨h1, h2⟩ := h
    constructor
    · intro hnil
      rw [hnil] at h1
      simp at h1
    · exact List.any_eq_true.mp h2
  · simp only [Option.isSome_none, Bool.false_eq_true, false_iff]
    rintro ⟨hne, c, hc, htr⟩
    apply h
    rw [Bool.and_eq_true, Bool.not_eq_true']
    refine ⟨?_, List.any_eq_true.mpr ⟨c, hc, htr⟩⟩
    cases general_usages with
    | nil => exact absurd rfl hne
    | cons a as => rfl

/-- C7: a record survives `filter_usages` iff it is in the base list and
passes every declared per-record filter dimension (period, channel type,
hour in account timezone, working weekday); an absent key constrains
nothing. -/
theorem usage_filter_conjunction (c : TariffComponent) (base_usages : List Usage)
    (u : Usage) :
    u ∈ filter_usages base_usages c ↔
      (u ∈ base_usages ∧
       optFilterPass c.periodFilter u.period = true ∧
       optFilterPass c.channelTypeFilter u.channel_type = true ∧
       optFilterPass c.hourFilter u.local_hour = true ∧
       optFilterPass c.workingWeekdayFilter
         (c.account_config.is_working_weekday u.date) = true) := by
  rcases hp : c.periodFilter with _ | pv <;>
  rcases hc : c.channelTypeFilter with _ | cv <;>
  rcases hh : c.hourFilter with _ | hv <;>
  rcases hw : c.workingWeekdayFilter with _ | wv <;>
    simp [filter_usages, TariffComponent.usage_filters, create_usage_filter,
      optFilterPass, hp, hc, hh, hw, List.mem_filter, and_assoc] <;>
    tauto

/-- C8: Python `max(filtered, key=kwh)` (the fold at `tariff.py` line 130)
is exactly the earliest maximal element: it equals `firstMaxBy`, and any
returned element splits the list so that everything before it is strictly
smaller and nothing anywhere exceeds it. -/
theorem pymax_first_maximum :
    (∀ (key : Usage → ℚ) (l : List Usage), pymaxByKey key l = firstMaxBy key l) ∧
    (∀ (key : Usage → ℚ) (l : List Usage) (u : Usage),
       pymaxByKey key l = some u →
         ∃ l1 l2, l = l1 ++ u :: l2 ∧ (∀ v ∈ l, key v ≤ key u) ∧
           (∀ v ∈ l1, key v < key u)) := by
  refine ⟨pymaxByKey_eq_firstMaxBy, ?_⟩
  intro key l u h
  rw [pymaxByKey_eq_firstMaxBy] at h
  exact firstMaxBy_first key l u h

/-- C8 witness: with two records tied at 5 kWh ahead of a 3 kWh record, the
fold returns the first of the tied pair. -/
theorem pymax_first_maximum_witness :
    pymaxByKey (fun u => u.kwh) [tie_a, tie_b, tie_c] = some tie_a ∧
    (∃ l1 l2, [tie_a, tie_b, tie_c] = l1 ++ tie_a :: l2 ∧
       (∀ v ∈ [tie_a, tie_b, tie_c], v.kwh ≤ tie_a.kwh) ∧
       (∀ v ∈ l1, v.kwh < tie_a.kwh)) :=
  ⟨rfl, pymax_first_maximum.2 (fun u => u.kwh) [tie_a, tie_b, tie_c] tie_a rfl⟩

/-- C10: a peak-demand-priced component that passes its gates but whose
filters exclude every record of a (non-empty) base list raises the
empty-`max` ValueError instead of suppressing the line. -/
theorem peak_component_empty_filtered_error (c : TariffComponent) (month : YearMonth)
    (base_usages : List Usage) (p : ℚ)
    (hg : gateFails c.greenpower_filter c.account_config.greenpower_active = false)
    (hf : gateFails c.feed_in_filter c.account_config.feed_in_active = false)
    (hm : monthGateFails c.month_filter month.month = false)
    (hday : truthy c.per_day_price_cents = false)
    (hkwh : truthy c.per_kwh_price_cents = false)
    (hp : c.per_peak_demand_kw_per_day_price_cents = some p)
    (hp0 : p ≠ 0)
    (_hbase : base_usages ≠ [])
    (hfiltered : filter_usages base_usages c = []) :
    c.create_line_for_component month base_usages =
      .error "max() arg is an empty sequence" := by
  have hpt : truthy c.per_peak_demand_kw_per_day_price_cents = true := by
    rw [hp]
    simp [truthy, hp0]
  simp [TariffComponent.create_line_for_component, hg, hf, hm, hday, hkwh, hpt, hfiltered,
    pymaxByKey]

/-- C10 witness: the empty-hour-filter peak component over a non-empty base
list. -/
theorem peak_component_empty_filtered_error_witness :
    gateFails c_peak_empty.greenpower_filter c_peak_empty.account_config.greenpower_active
      = false ∧
    gateFails c_peak_empty.feed_in_filter c_peak_empty.account_config.feed_in_active
      = false ∧
    monthGateFails c_peak_empty.month_filter m0.month = false ∧
    truthy c_peak_empty.per_day_price_cents = false ∧
    truthy c_peak_empty.per_kwh_price_cents = false ∧
    c_peak_empty.per_peak_demand_kw_per_day_price_cents = some 10 ∧
    (10 : ℚ) ≠ 0 ∧
    ([u30] : List Usage) ≠ [] ∧
    filter_usages [u30] c_peak_empty = [] ∧
    TariffComponent.create_line_for_component c_peak_empty m0 [u30] =
      .error "max() arg is an empty sequence" :=
  ⟨rfl, rfl, rfl, rfl, rfl, rfl, by decide, by decide, rfl,
   peak_component_empty_filtered_error c_peak_empty m0 [u30] 10 rfl rfl rfl rfl rfl rfl
     (by decide) (by decide) rfl⟩

end Amber
